import Mathlib

/-!
Verification of the EnttWrap ECS access layer (src/EnttWrap.h) against its
natural-language specification.

The embedding models one component type `C` with payload `Nat`, one
`EntityManager`/`EventManager` pair (the `World`), and the `SystemManager`.
The storage collaborator (the `entt` registry, out of scope per spec §1/§6)
is modelled by `Registry` following the collaborator contract of spec §6:
a live-entity set, a per-component pool, and a fresh-id counter. C `assert`
statements in the source abort the process in debug builds and vanish under
NDEBUG; they are modelled by the distinguished outcome `assertViolation` /
`assertFailed`, which is an abort, not an error value returned to the caller.
-/

namespace EnttWrap

/-- `entity_type` (EnttWrap.h line 7): a 32-bit id, modelled as `Nat`. -/
abbrev entity_type := Nat

/-- `Entity::INVALID` (line 71): the sentinel index `0xffffffff`. -/
def INVALID : entity_type := 0xffffffff

/-- Storage collaborator state (spec §6 contract; `DefaultRegistry`):
live entity ids, the component-`C` pool (id, payload), and the next fresh id. -/
structure Registry where
  live : List entity_type
  pool : List (entity_type × Nat)
  nextId : Nat
deriving DecidableEq

/-- The empty registry. -/
def Registry.empty : Registry := ⟨[], [], 0⟩

/-- Collaborator `allocate-entity`: returns a fresh id (ids count up from 0,
so the sentinel `INVALID` is never allocated). -/
def Registry.create (r : Registry) : Registry × entity_type :=
  (⟨r.live ++ [r.nextId], r.pool, r.nextId + 1⟩, r.nextId)

/-- Collaborator `is-valid(id)`: the id is currently live. -/
def Registry.rvalid (r : Registry) (i : entity_type) : Bool :=
  decide (i ∈ r.live)

/-- Collaborator `has<C>(id)`: the pool holds an entry for the id. -/
def Registry.has (r : Registry) (i : entity_type) : Bool :=
  decide (i ∈ r.pool.map Prod.fst)

/-- Collaborator `get<C>(id)`: look up the payload stored for the id. -/
def Registry.getC (r : Registry) (i : entity_type) : Option Nat :=
  (r.pool.find? (fun p => p.1 == i)).map Prod.snd

/-- Collaborator `construct<C>(id, v)`: store the component keyed by the id.
The registry's own `assert(valid(entity))` compiles out under NDEBUG and the
pool write proceeds regardless of liveness, which is what this models. -/
def Registry.construct (r : Registry) (i : entity_type) (v : Nat) : Registry :=
  ⟨r.live, r.pool.filter (fun p => decide (p.1 ≠ i)) ++ [(i, v)], r.nextId⟩

/-- Collaborator `destroy-component<C>(id)`: drop the pool entry for the id. -/
def Registry.destroyComponent (r : Registry) (i : entity_type) : Registry :=
  ⟨r.live, r.pool.filter (fun p => decide (p.1 ≠ i)), r.nextId⟩

/-- Collaborator `destroy(id)`: remove the id from the live set and drop its
components (spec §3: components are destroyed with their owning entity). -/
def Registry.destroy (r : Registry) (i : entity_type) : Registry :=
  ⟨r.live.filter (fun x => decide (x ≠ i)),
   r.pool.filter (fun p => decide (p.1 ≠ i)), r.nextId⟩

/-- Structural events for component type `C` (lines 113-133), carrying the
affected entity id. -/
inductive Ev where
  | added (i : entity_type)
  | removed (i : entity_type)
deriving DecidableEq

/-- One synchronous delivery of an event to one receiver. -/
structure Delivery where
  receiver : Nat
  ev : Ev
deriving DecidableEq

/-- The manager pair: registry state, the dispatcher's subscriber lists for
`ComponentAddedEvent<C>` / `ComponentRemovedEvent<C>` (in connection order),
whether the storage construction/destruction hooks are connected to
`receiveAddComponent` / `receiveRemoveComponent` (lines 418-426), and the
dispatcher's pending queue. -/
structure World where
  reg : Registry
  subsAdded : List Nat
  subsRemoved : List Nat
  hookAdd : Bool
  hookRemove : Bool
  queue : List Ev
deriving DecidableEq

/-- A fresh world: empty registry, no subscribers, no hooks, empty queue. -/
def World.empty : World := ⟨Registry.empty, [], [], false, false, []⟩

/-- `EventManager::emit` of `ComponentAddedEvent<C>` via `trigger` (lines
162-172): synchronous delivery to every current subscriber, in connection
order; returns the list of deliveries performed during the call. -/
def World.emitAdded (w : World) (i : entity_type) : List Delivery :=
  w.subsAdded.map (fun r => ⟨r, Ev.added i⟩)

/-- `EventManager::emit` of `ComponentRemovedEvent<C>`: synchronous delivery
to every current subscriber, in connection order. -/
def World.emitRemoved (w : World) (i : entity_type) : List Delivery :=
  w.subsRemoved.map (fun r => ⟨r, Ev.removed i⟩)

/-- `EntityManager::subscribe` for `ComponentAddedEvent<C>` (lines 428-435):
connects the receiver on the bus and connects the storage construction hook
to `receiveAddComponent<C>`. -/
def World.subscribeAdded (w : World) (r : Nat) : World :=
  { w with subsAdded := w.subsAdded ++ [r], hookAdd := true }

/-- `EntityManager::subscribe` for `ComponentRemovedEvent<C>` (lines 437-444):
connects the receiver on the bus and connects the storage destruction hook. -/
def World.subscribeRemoved (w : World) (r : Nat) : World :=
  { w with subsRemoved := w.subsRemoved ++ [r], hookRemove := true }

/-- `EntityManager::unsubscribe` for `ComponentAddedEvent<C>` (lines 446-453):
disconnects the receiver from the bus and disconnects the construction hook. -/
def World.unsubscribeAdded (w : World) (r : Nat) : World :=
  { w with subsAdded := w.subsAdded.filter (fun x => decide (x ≠ r)),
           hookAdd := false }

/-- `EntityManager::unsubscribe` for `ComponentRemovedEvent<C>` (lines
455-462). NOTE: line 460 of the source reads
`event_manager_.subscribe<Event>(receiver)` - it CONNECTS the receiver on the
bus instead of disconnecting it - while line 461 disconnects the storage
destruction hook. This definition reproduces that code faithfully. -/
def World.unsubscribeRemoved (w : World) (r : Nat) : World :=
  { w with subsRemoved := w.subsRemoved ++ [r], hookRemove := false }

/-- `Entity` (lines 52-111): a weak reference = (index, manager pointer).
Default-constructed: `id_ = INVALID`, `manager_ = nullptr` (lines 109-110).
The manager pointer is modelled as `Option Nat` (`none` = nullptr); entities
obtained from the single modelled manager carry `some 0`. -/
structure Entity where
  id_ : entity_type := INVALID
  manager_ : Option Nat := none
deriving DecidableEq

/-- `ComponentHandle<C>` (lines 12-50): (manager pointer, entity index).
Default constructor (line 17) nulls `manager_` and leaves `id_`
uninitialized, so a default handle is modelled with an arbitrary `id_`. -/
structure ComponentHandle where
  manager_ : Option Nat
  id_ : entity_type
deriving DecidableEq

/-- `Entity::valid` (lines 579-586): `if (id_ != INVALID) return
manager_->valid(id_); return false;`. -/
def Entity.valid (e : Entity) (w : World) : Bool :=
  if e.id_ ≠ INVALID then w.reg.rvalid e.id_ else false

/-- `Entity::assign<C>` (lines 559-568): `if (id_ != INVALID)
manager_->assign<Component>(id_, ...); return ComponentHandle(manager_, id())`.
The registry construct fires the construction hook when connected, which
(via `receiveAddComponent`, lines 418-421) emits `ComponentAddedEvent<C>`
synchronously. Returns the new world, the returned handle, and the
deliveries performed during the call. -/
def Entity.assign (e : Entity) (v : Nat) (w : World) :
    World × ComponentHandle × List Delivery :=
  if e.id_ ≠ INVALID then
    ({ w with reg := w.reg.construct e.id_ v },
     ⟨e.manager_, e.id_⟩,
     if w.hookAdd then w.emitAdded e.id_ else [])
  else
    (w, ⟨e.manager_, e.id_⟩, [])

/-- `Entity::remove<C>` (lines 570-577): `if (id_ != INVALID)
manager_->remove<Component>(id_);`; the destruction hook fires when
connected (via `receiveRemoveComponent`, lines 423-426). -/
def Entity.remove (e : Entity) (w : World) : World × List Delivery :=
  if e.id_ ≠ INVALID then
    ({ w with reg := w.reg.destroyComponent e.id_ },
     if w.hookRemove then w.emitRemoved e.id_ else [])
  else (w, [])

/-- `Entity::has_component<C>` (lines 551-558): `if (id_ != INVALID) return
manager_->has<Component>(id_); return false;`. -/
def Entity.has_component (e : Entity) (w : World) : Bool :=
  if e.id_ ≠ INVALID then w.reg.has e.id_ else false

/-- `Entity::destroy` (lines 593-599): `if (id_ != INVALID)
manager_->destroy(id_);`. -/
def Entity.destroy (e : Entity) (w : World) : World :=
  if e.id_ ≠ INVALID then { w with reg := w.reg.destroy e.id_ } else w

/-- `Entity::operator==` (lines 96-98): `other.manager_ == manager_ &&
other.id_ == id_`. -/
def Entity.beq (a b : Entity) : Bool :=
  b.manager_ == a.manager_ && b.id_ == a.id_

/-- `Entity::operator<` (lines 104-106): `return other.id_ < id_;` - note the
reversed operand order, and that the manager is ignored. -/
def Entity.lt (a b : Entity) : Bool :=
  decide (b.id_ < a.id_)

/-- `ComponentHandle::valid` (lines 606-609): `manager_ &&
manager_->valid(id_) && manager_->has<C>(id_)` - short-circuits on the null
manager before touching storage. -/
def ComponentHandle.valid (h : ComponentHandle) (w : World) : Bool :=
  h.manager_.isSome && w.reg.rvalid h.id_ && w.reg.has h.id_

/-- Result of a dereference: either the stored value, or the failure of the
`assert(valid())` precondition check (lines 611-645) - a debug abort /
release undefined behavior, not an error value returned to the caller. -/
inductive DerefResult (α : Type) where
  | ok (a : α)
  | assertViolation
deriving DecidableEq

/-- `ComponentHandle` dereference - `operator->`, `operator*` and `get` share
the body `assert(valid()); return manager_->get<C>(id_);` (lines 611-645). -/
def ComponentHandle.get (h : ComponentHandle) (w : World) : DerefResult Nat :=
  if h.valid w then
    match w.reg.getC h.id_ with
    | some v => DerefResult.ok v
    | none => DerefResult.assertViolation
  else DerefResult.assertViolation

/-- Error taxonomy of spec §7 for the entity/handle layer. -/
inductive EWErr where
  | invalidEntity
  | invalidComponent
deriving DecidableEq

/-- Follows the spec's words (§4.2, §7): dereference of a handle whose
`valid()` is false surfaces an explicit, typed `InvalidComponent` failure to
the caller. Stated only for comparison against `ComponentHandle.get`, the
definition taken from the source. -/
def ComponentHandle.getSpec (h : ComponentHandle) (w : World) : Except EWErr Nat :=
  if h.valid w then
    match w.reg.getC h.id_ with
    | some v => Except.ok v
    | none => Except.error EWErr.invalidComponent
  else Except.error EWErr.invalidComponent

/-- `TimeDelta` (line 6) is `double`; the scheduler only forwards `dt`
verbatim to each system, so its carrier is irrelevant and is modelled as
`Nat`. -/
abbrev TimeDelta := Nat

/-- `SystemManager` (lines 482-535): the `initialized_` flag (line 531,
modelled as `configured`) and `systems_` (line 534), a
`std::unordered_map<Family, shared_ptr<BaseSystem>>` modelled as its
key-value pairs `(family id, system)` listed in insertion order. The C++
standard leaves the map's ITERATION order unspecified, so iterating code
below takes the iteration order as an explicit parameter, constrained to be
a permutation of these pairs. -/
structure SystemManager where
  configured : Bool := false
  systems_ : List (Nat × Nat) := []
deriving DecidableEq

/-- Models a failed C `assert`: a debug abort (release: the check vanishes),
not an error value returned to the caller. -/
inductive AssertErr where
  | assertFailed
deriving DecidableEq

/-- Error taxonomy of spec §7 for the scheduler. -/
inductive SchedErr where
  | duplicateSystem
  | systemNotFound
  | notConfigured
  | alreadyConfigured
deriving DecidableEq

/-- `SystemManager::add` (lines 489-492): `systems_.insert(make_pair(...))`.
`std::unordered_map::insert` is a no-op when the key is already present: the
first registration is kept, nothing is overwritten, and no error of any kind
is reported (the return value is discarded). -/
def SystemManager.add (sm : SystemManager) (fam s : Nat) : SystemManager :=
  if sm.systems_.any (fun p => p.1 == fam) then sm
  else { sm with systems_ := sm.systems_ ++ [(fam, s)] }

/-- `SystemManager::update_all` (lines 517-522): `assert(initialized_)`, then
invoke `update` on each map entry in the map's iteration order (`order`),
forwarding the same `dt`. Returns the invocation trace `(system, dt)`. -/
def SystemManager.update_all (sm : SystemManager) (order : List (Nat × Nat))
    (dt : TimeDelta) : Except AssertErr (List (Nat × TimeDelta)) :=
  if sm.configured then Except.ok (order.map (fun p => (p.2, dt)))
  else Except.error AssertErr.assertFailed

/-- `SystemManager::update<System>` (lines 510-515): `assert(initialized_)`,
then `system<System>()` (which asserts the family id is present, lines
501-508) and one `update` call on that system. -/
def SystemManager.update (sm : SystemManager) (fam : Nat) (dt : TimeDelta) :
    Except AssertErr (Nat × TimeDelta) :=
  if sm.configured then
    match sm.systems_.find? (fun p => p.1 == fam) with
    | some p => Except.ok (p.2, dt)
    | none => Except.error AssertErr.assertFailed
  else Except.error AssertErr.assertFailed

/-- `SystemManager::configure` (lines 523-528): unconditionally invokes
`configure` on every map entry in the map's iteration order (`order`), then
sets the flag. There is no already-configured check. Returns the new state
and the trace of systems whose `configure` was invoked. -/
def SystemManager.configure (sm : SystemManager) (order : List (Nat × Nat)) :
    SystemManager × List Nat :=
  ({ sm with configured := true }, order.map (fun p => p.2))

/-- Follows the spec's words (§4.5, §7): registering a second system with an
already-registered family id is rejected with an explicit `DuplicateSystem`
error. Stated only for comparison against `SystemManager.add`, the
definition taken from the source. -/
def SystemManager.addSpec (sm : SystemManager) (fam s : Nat) :
    Except SchedErr SystemManager :=
  if sm.systems_.any (fun p => p.1 == fam) then
    Except.error SchedErr.duplicateSystem
  else Except.ok { sm with systems_ := sm.systems_ ++ [(fam, s)] }

/-- Follows the spec's words (§4.5, §7): a second `configure` call fails with
`AlreadyConfigured` and re-invokes no system's `configure`. Stated only for
comparison against `SystemManager.configure`, the definition taken from the
source. -/
def SystemManager.configureSpec (sm : SystemManager) :
    Except SchedErr (SystemManager × List Nat) :=
  if sm.configured then Except.error SchedErr.alreadyConfigured
  else Except.ok ({ sm with configured := true }, sm.systems_.map (fun p => p.2))

/-! ## Helper lemmas -/

/-- A valid entity's index is not the sentinel (the `valid` guard structure). -/
theorem valid_ne (e : Entity) (w : World) (hv : e.valid w = true) :
    e.id_ ≠ INVALID := by
  intro h
  simp [Entity.valid, h] at hv

/-- After the collaborator destroys an id, that id is no longer live. -/
theorem rvalid_destroy (r : Registry) (i : entity_type) :
    (r.destroy i).rvalid i = false := by
  simp [Registry.rvalid, Registry.destroy, List.mem_filter]

/-! ## C1 - duplicate system registration -/

/-- C1 counterexample: register system 10 under family 0, then register
system 20 under the same family 0. The second `add` is a silent no-op - the
state is unchanged (the first registration is kept, system 20 is dropped)
and `add` has no error channel at all - whereas the claim requires an
explicit `DuplicateSystem` rejection (which the spec-worded `addSpec` shows). -/
theorem c1_counterexample :
    SystemManager.add (SystemManager.add ⟨false, []⟩ 0 10) 0 20
      = SystemManager.add ⟨false, []⟩ 0 10
    ∧ SystemManager.addSpec (SystemManager.add ⟨false, []⟩ 0 10) 0 20
      = Except.error SchedErr.duplicateSystem := by
  exact ⟨rfl, rfl⟩

/-- C1 amended: registering a second system under an already-registered
family id is a silent no-op: the first registration is kept, nothing is
overwritten, and no error is reported (`std::unordered_map::insert` ignores
the duplicate and `add` discards its return value). -/
theorem c1_amended (sm : SystemManager) (fam s : Nat)
    (h : sm.systems_.any (fun p => p.1 == fam) = true) :
    sm.add fam s = sm := by
  simp [SystemManager.add, h]

/-- C1 witness: family 0 is already registered with system 10; adding system
20 under family 0 leaves the manager unchanged. -/
theorem c1_amended_witness :
    SystemManager.add ⟨false, [(0, 10)]⟩ 0 20 = ⟨false, [(0, 10)]⟩ :=
  c1_amended ⟨false, [(0, 10)]⟩ 0 20 (by decide)

/-! ## C2 - update_all ordering -/

/-- C2 counterexample: systems 10, 11, 12 are registered in that order under
families 0, 1, 2 and the manager is configured. The C++ standard leaves
`std::unordered_map` iteration order unspecified, so the order
`[(1,11),(0,10),(2,12)]` - a permutation of the stored pairs - is an
admissible execution; under it `update_all 1` produces the invocation trace
`[(11,1),(10,1),(12,1)]`, which is not the registration-order trace
`[(10,1),(11,1),(12,1)]` required by the claim. -/
theorem c2_counterexample :
    (SystemManager.configure
        (SystemManager.add (SystemManager.add
          (SystemManager.add ⟨false, []⟩ 0 10) 1 11) 2 12) []).1
      = ⟨true, [(0, 10), (1, 11), (2, 12)]⟩
    ∧ List.Perm [(1, 11), (0, 10), (2, 12)] [(0, 10), (1, 11), (2, 12)]
    ∧ SystemManager.update_all ⟨true, [(0, 10), (1, 11), (2, 12)]⟩
        [(1, 11), (0, 10), (2, 12)] 1
      = Except.ok [(11, 1), (10, 1), (12, 1)]
    ∧ ([(11, 1), (10, 1), (12, 1)] : List (Nat × TimeDelta))
      ≠ [(10, 1), (11, 1), (12, 1)] := by
  refine ⟨rfl, List.Perm.swap (0, 10) (1, 11) [(2, 12)], rfl, by decide⟩

/-- C2 amended: on a configured manager, `update_all dt` invokes each
registered system's `update` exactly once, each receiving the same `dt`, but
in the `unordered_map`'s (unspecified) iteration order - some permutation of
the registered systems - not necessarily registration order: the invocation
trace is a permutation of one `(system, dt)` entry per registered system. -/
theorem c2_amended (sm : SystemManager) (order : List (Nat × Nat))
    (dt : TimeDelta) (hc : sm.configured = true)
    (hp : order.Perm sm.systems_) :
    sm.update_all order dt = Except.ok (order.map (fun p => (p.2, dt)))
    ∧ (order.map (fun p => (p.2, dt))).Perm
        (sm.systems_.map (fun p => (p.2, dt))) := by
  constructor
  · simp [SystemManager.update_all, hc]
  · exact hp.map _

/-- C2 witness: two systems, iteration order the swap of registration order. -/
theorem c2_amended_witness :
    SystemManager.update_all ⟨true, [(0, 10), (1, 11)]⟩ [(1, 11), (0, 10)] 1
      = Except.ok [(11, 1), (10, 1)]
    ∧ ([(11, 1), (10, 1)] : List (Nat × TimeDelta)).Perm [(10, 1), (11, 1)] :=
  c2_amended ⟨true, [(0, 10), (1, 11)]⟩ [(1, 11), (0, 10)] 1 rfl
    (List.Perm.swap (0, 10) (1, 11) [])

/-! ## C3 - unsubscribe for ComponentRemoved -/

/-- C3: the claim is right and the code wrong (the spec itself flags the
defect). `EntityManager::unsubscribe` for `ComponentRemovedEvent<C>` (line
460) calls `event_manager_.subscribe` instead of `unsubscribe`. Failing
input: receiver 7 subscribes to `ComponentRemoved<C>`, then unsubscribes.
Afterwards the bus subscriber list is `[7, 7]` - the receiver was CONNECTED
again, not disconnected - so a subsequent `emit` of a removed event still
delivers to receiver 7 (twice), while the storage destruction hook was
removed. The claim says the receiver no longer receives such events and that
unsubscribe never adds a subscription. -/
theorem c3_code_bug :
    (World.unsubscribeRemoved (World.subscribeRemoved World.empty 7) 7).subsRemoved
      = [7, 7]
    ∧ Delivery.mk 7 (Ev.removed 3) ∈
        World.emitRemoved
          (World.unsubscribeRemoved (World.subscribeRemoved World.empty 7) 7) 3
    ∧ (World.unsubscribeRemoved (World.subscribeRemoved World.empty 7) 7).hookRemove
      = false := by
  refine ⟨rfl, by decide, rfl⟩

/-! ## C4 - scheduler lifecycle violations -/

/-- C4 counterexample: with system 10 registered and the manager not yet
configured, `update_all` fails the C `assert(initialized_)` - a debug abort
(release: no check at all), not a typed `NotConfigured` error value. And on
an already-configured manager, `configure` performs no check: it re-invokes
system 10's `configure` (trace `[10]`, not empty) and returns plainly, where
the claim requires an `AlreadyConfigured` failure without re-invocation
(which the spec-worded `configureSpec` shows). -/
theorem c4_counterexample :
    SystemManager.update_all ⟨false, [(0, 10)]⟩ [(0, 10)] 1
      = Except.error AssertErr.assertFailed
    ∧ SystemManager.configure ⟨true, [(0, 10)]⟩ [(0, 10)]
      = (⟨true, [(0, 10)]⟩, [10])
    ∧ SystemManager.configureSpec ⟨true, [(0, 10)]⟩
      = Except.error SchedErr.alreadyConfigured := by
  exact ⟨rfl, rfl, rfl⟩

/-- C4 amended: lifecycle violations do not surface as typed error values:
`update_all` and `update<System>` before `configure` fail the
`assert(initialized_)` check (modelled `assertFailed`; the check vanishes
under NDEBUG), and `configure` called after a first `configure` unconditionally
re-invokes every registered system's `configure` (a non-empty trace whenever
the iteration order is non-empty) and reports no error. -/
theorem c4_amended (sm : SystemManager) (order : List (Nat × Nat))
    (fam : Nat) (dt : TimeDelta) (h1 : sm.configured = false)
    (h2 : order ≠ []) :
    sm.update_all order dt = Except.error AssertErr.assertFailed
    ∧ sm.update fam dt = Except.error AssertErr.assertFailed
    ∧ ((sm.configure order).1).configured = true
    ∧ ((sm.configure order).1.configure order).2 = order.map (fun p => p.2)
    ∧ ((sm.configure order).1.configure order).2 ≠ [] := by
  refine ⟨by simp [SystemManager.update_all, h1],
          by simp [SystemManager.update, h1], rfl, rfl, ?_⟩
  cases order with
  | nil => exact absurd rfl h2
  | cons a t => simp [SystemManager.configure]

/-- C4 witness: one registered system, unconfigured manager. -/
theorem c4_amended_witness :
    SystemManager.update_all ⟨false, [(0, 10)]⟩ [(0, 10)] 1
      = Except.error AssertErr.assertFailed
    ∧ SystemManager.update ⟨false, [(0, 10)]⟩ 0 1
      = Except.error AssertErr.assertFailed
    ∧ ((SystemManager.configure ⟨false, [(0, 10)]⟩ [(0, 10)]).1).configured = true
    ∧ ((SystemManager.configure ⟨false, [(0, 10)]⟩ [(0, 10)]).1.configure
        [(0, 10)]).2 = [(0, 10)].map (fun p => p.2)
    ∧ ((SystemManager.configure ⟨false, [(0, 10)]⟩ [(0, 10)]).1.configure
        [(0, 10)]).2 ≠ [] :=
  c4_amended ⟨false, [(0, 10)]⟩ [(0, 10)] 0 1 rfl (by decide)

/-! ## C5 - invalid handle dereference -/

/-- C5 counterexample: the handle `(manager, id 3)` in the empty world has
`valid() == false`; dereferencing it fails the `assert(valid())` check - a
debug abort (release: undefined behavior on `manager_->get<C>(3)`), not a
returned value - where the claim requires an explicit, typed
`InvalidComponent` failure surfaced to the caller (which the spec-worded
`getSpec` shows). -/
theorem c5_counterexample :
    ComponentHandle.valid ⟨some 0, 3⟩ World.empty = false
    ∧ ComponentHandle.get ⟨some 0, 3⟩ World.empty = DerefResult.assertViolation
    ∧ ComponentHandle.getSpec ⟨some 0, 3⟩ World.empty
      = Except.error EWErr.invalidComponent := by
  exact ⟨rfl, rfl, rfl⟩

/-- C5 amended: dereferencing a handle with `valid() == false` (via
`operator->`, `operator*` or `get`, which share one body) fails the
`assert(valid())` precondition check - modelled `assertViolation`, a debug
abort and release undefined behavior - and no typed `InvalidComponent` error
value is returned to the caller. -/
theorem c5_amended (h : ComponentHandle) (w : World)
    (hv : h.valid w = false) :
    h.get w = DerefResult.assertViolation := by
  simp [ComponentHandle.get, hv]

/-- C5 witness: a dangling handle in the empty world. -/
theorem c5_amended_witness :
    ComponentHandle.get ⟨some 0, 5⟩ World.empty = DerefResult.assertViolation :=
  c5_amended ⟨some 0, 5⟩ World.empty (by decide)

/-! ## C6 - operations on an invalid entity -/

/-- C6 counterexample: entity 0 is created and then destroyed, so
`valid() == false`; yet `assign` checks only `id_ != INVALID` (line 562), so
the call is forwarded to storage: the pool gains the entry `(0, 5)` (storage
is NOT left unchanged), and `has_component` afterwards even reports `true`
for the destroyed entity. The claim that assign on EVERY invalid entity -
including a destroyed one - is a silently absorbed no-op is false. -/
theorem c6_counterexample :
    Entity.valid ⟨0, some 0⟩
      (Entity.destroy ⟨0, some 0⟩ ⟨⟨[0], [], 1⟩, [], [], false, false, []⟩) = false
    ∧ (Entity.assign ⟨0, some 0⟩ 5
        (Entity.destroy ⟨0, some 0⟩ ⟨⟨[0], [], 1⟩, [], [], false, false, []⟩)).1.reg
      ≠ (Entity.destroy ⟨0, some 0⟩ ⟨⟨[0], [], 1⟩, [], [], false, false, []⟩).reg
    ∧ Entity.has_component ⟨0, some 0⟩
        (Entity.assign ⟨0, some 0⟩ 5
          (Entity.destroy ⟨0, some 0⟩ ⟨⟨[0], [], 1⟩, [], [], false, false, []⟩)).1
      = true
    ∧ Entity.valid ⟨0, some 0⟩
        (Entity.assign ⟨0, some 0⟩ 5
          (Entity.destroy ⟨0, some 0⟩ ⟨⟨[0], [], 1⟩, [], [], false, false, []⟩)).1
      = false := by
  refine ⟨by decide, by decide, by decide, by decide⟩

/-- C6 amended: only the default-constructed sentinel is absorbed: for every
entity whose index is the `INVALID` sentinel, `assign`, `remove` and
`has_component` are silent no-ops (world unchanged, no events delivered, a
handle is still returned, `has_component` returns `false`). An entity that
was destroyed but keeps a non-sentinel index is NOT absorbed - its calls are
forwarded to storage (see the counterexample). -/
theorem c6_amended (e : Entity) (w : World) (v : Nat)
    (h : e.id_ = INVALID) :
    Entity.assign e v w = (w, ⟨e.manager_, e.id_⟩, [])
    ∧ Entity.remove e w = (w, [])
    ∧ Entity.has_component e w = false := by
  refine ⟨?_, ?_, ?_⟩ <;>
    simp [Entity.assign, Entity.remove, Entity.has_component, h]

/-- C6 witness: the default-constructed entity in the empty world. -/
theorem c6_amended_witness :
    Entity.assign ⟨INVALID, none⟩ 5 World.empty
      = (World.empty, ⟨none, INVALID⟩, [])
    ∧ Entity.remove ⟨INVALID, none⟩ World.empty = (World.empty, [])
    ∧ Entity.has_component ⟨INVALID, none⟩ World.empty = false :=
  c6_amended ⟨INVALID, none⟩ World.empty 5 rfl

/-! ## C7 - entity equality and ordering -/

/-- C7 counterexample: two entities on the same manager with indices 1 and 2.
Lexicographic order on (manager, index) demands `a < b`, but the source's
comparator (`return other.id_ < id_;`, line 105) gives `a < b == false` and
`b < a == true`: `a < b` holds exactly when b's index is SMALLER, the
opposite of what the claim states. -/
theorem c7_counterexample :
    Entity.lt ⟨1, some 0⟩ ⟨2, some 0⟩ = false
    ∧ Entity.lt ⟨2, some 0⟩ ⟨1, some 0⟩ = true
    ∧ (1 : entity_type) < 2 := by
  refine ⟨rfl, rfl, by decide⟩

/-- C7 amended: equality is by the (manager, index) pair as claimed, and
`a < b` is a strict ordering (irreflexive, transitive), but it holds iff
`b.id_ < a.id_` - the REVERSE of index order, with the manager ignored - so
with equal managers `a < b` implies a's index is GREATER than b's. -/
theorem c7_amended (a b c : Entity) :
    (Entity.beq a b = true ↔ (b.manager_ = a.manager_ ∧ b.id_ = a.id_))
    ∧ (Entity.lt a b = true ↔ b.id_ < a.id_)
    ∧ Entity.lt a a = false
    ∧ (Entity.lt a b = true → Entity.lt b c = true → Entity.lt a c = true) := by
  refine ⟨?_, ?_, ?_, ?_⟩
  · simp [Entity.beq]
  · simp [Entity.lt]
  · simp [Entity.lt]
  · intro h1 h2
    simp only [Entity.lt, decide_eq_true_eq] at h1 h2 ⊢
    exact lt_trans h2 h1

/-- C7 witness: the amended statement at entities with indices 1, 2, 3. -/
theorem c7_amended_witness :
    (Entity.beq ⟨1, some 0⟩ ⟨2, some 0⟩ = true
      ↔ ((⟨2, some 0⟩ : Entity).manager_ = (⟨1, some 0⟩ : Entity).manager_
          ∧ (⟨2, some 0⟩ : Entity).id_ = (⟨1, some 0⟩ : Entity).id_))
    ∧ (Entity.lt ⟨1, some 0⟩ ⟨2, some 0⟩ = true
        ↔ (⟨2, some 0⟩ : Entity).id_ < (⟨1, some 0⟩ : Entity).id_)
    ∧ Entity.lt ⟨1, some 0⟩ ⟨1, some 0⟩ = false
    ∧ (Entity.lt ⟨1, some 0⟩ ⟨2, some 0⟩ = true
        → Entity.lt ⟨2, some 0⟩ ⟨3, none⟩ = true
        → Entity.lt ⟨1, some 0⟩ ⟨3, none⟩ = true) :=
  c7_amended ⟨1, some 0⟩ ⟨2, some 0⟩ ⟨3, none⟩

/-! ## C8 - synchronous ComponentAdded delivery -/

/-- C8: for every receiver `r` subscribed (once) to `ComponentAdded<C>` -
which also connects the storage construction hook - a call `e.assign<C>` on a
valid entity `e` delivers, synchronously during the assign call itself,
exactly one `ComponentAdded<C>` event carrying e's id to `r` (and exactly one
delivery to `r` in total), and nothing is deferred: the dispatcher's pending
queue is unchanged. -/
theorem c8_confirmed (w : World) (r : Nat) (e : Entity) (v : Nat)
    (hs : w.subsAdded.count r = 1) (hh : w.hookAdd = true)
    (hv : e.valid w = true) :
    ((e.assign v w).2.2).count ⟨r, Ev.added e.id_⟩ = 1
    ∧ ((e.assign v w).2.2).countP (fun d => d.receiver == r) = 1
    ∧ (e.assign v w).1.queue = w.queue := by
  have hne := valid_ne e w hv
  have hinj : Function.Injective (fun x : Nat => Delivery.mk x (Ev.added e.id_)) := by
    intro x y hxy
    simpa using congrArg Delivery.receiver hxy
  refine ⟨?_, ?_, ?_⟩
  · simp only [Entity.assign, hne, ne_eq, not_false_eq_true, if_true, hh,
      World.emitAdded]
    have := List.count_map_of_injective (l := w.subsAdded)
      (f := fun x : Nat => Delivery.mk x (Ev.added e.id_)) hinj r
    exact this.trans hs
  · simp only [Entity.assign, hne, ne_eq, not_false_eq_true, if_true, hh,
      World.emitAdded, List.countP_map]
    exact hs
  · simp [Entity.assign, hne]

/-- C8 witness: receiver 7 subscribes to `ComponentAdded<C>`, then entity 0
(live) gets a component assigned: exactly one synchronous delivery. -/
theorem c8_confirmed_witness :
    ((Entity.assign ⟨0, some 0⟩ 5
        (World.subscribeAdded ⟨⟨[0], [], 1⟩, [], [], false, false, []⟩ 7)).2.2).count
      ⟨7, Ev.added (⟨0, some 0⟩ : Entity).id_⟩ = 1
    ∧ ((Entity.assign ⟨0, some 0⟩ 5
        (World.subscribeAdded ⟨⟨[0], [], 1⟩, [], [], false, false, []⟩ 7)).2.2).countP
      (fun d => d.receiver == 7) = 1
    ∧ (Entity.assign ⟨0, some 0⟩ 5
        (World.subscribeAdded ⟨⟨[0], [], 1⟩, [], [], false, false, []⟩ 7)).1.queue
      = (World.subscribeAdded ⟨⟨[0], [], 1⟩, [], [], false, false, []⟩ 7).queue :=
  c8_confirmed (World.subscribeAdded ⟨⟨[0], [], 1⟩, [], [], false, false, []⟩ 7)
    7 ⟨0, some 0⟩ 5 (by decide) rfl (by decide)

/-! ## C9 - destroy invalidates entity and handles -/

/-- C9: for every valid entity `e`, after `e.destroy()` the entity reports
`valid() == false`, and every previously obtained `ComponentHandle`
referencing e's index also reports `valid() == false` on its next check. -/
theorem c9_confirmed (w : World) (e : Entity) (h : ComponentHandle)
    (hv : e.valid w = true) (hh : h.id_ = e.id_) :
    Entity.valid e (e.destroy w) = false
    ∧ ComponentHandle.valid h (e.destroy w) = false := by
  have hne := valid_ne e w hv
  have hdest : e.destroy w = { w with reg := w.reg.destroy e.id_ } := by
    simp [Entity.destroy, hne]
  have hr : (w.reg.destroy e.id_).rvalid e.id_ = false :=
    rvalid_destroy w.reg e.id_
  constructor
  · simp [Entity.valid, hne, hdest, hr]
  · simp [ComponentHandle.valid, hdest, hh, hr]

/-- C9 witness: entity 0, live and holding a component, is destroyed; both
the entity and a handle to it report invalid. -/
theorem c9_confirmed_witness :
    Entity.valid ⟨0, some 0⟩
      (Entity.destroy ⟨0, some 0⟩ ⟨⟨[0], [(0, 9)], 1⟩, [], [], false, false, []⟩)
      = false
    ∧ ComponentHandle.valid ⟨some 0, 0⟩
      (Entity.destroy ⟨0, some 0⟩ ⟨⟨[0], [(0, 9)], 1⟩, [], [], false, false, []⟩)
      = false :=
  c9_confirmed ⟨⟨[0], [(0, 9)], 1⟩, [], [], false, false, []⟩ ⟨0, some 0⟩
    ⟨some 0, 0⟩ (by decide) rfl

/-! ## C10 - validity checks are total and safe -/

/-- C10: validity checking never touches storage on degenerate values: a
handle with a null manager (the default constructor nulls `manager_` and
leaves `id_` uninitialized, hence the arbitrary `i`) reports false for EVERY
storage state because `manager_ && ...` short-circuits, and an entity with
the `INVALID` sentinel index (any manager) reports false for every storage
state because the `id_ != INVALID` guard short-circuits; the
default-constructed entity is exactly the sentinel with a null manager. -/
theorem c10_confirmed : ∀ (w : World) (i : entity_type) (m : Option Nat),
    ComponentHandle.valid ⟨none, i⟩ w = false
    ∧ Entity.valid ⟨INVALID, m⟩ w = false
    ∧ ({} : Entity) = ⟨INVALID, none⟩ := by
  intro w i m
  refine ⟨?_, ?_, rfl⟩
  · simp [ComponentHandle.valid]
  · simp [Entity.valid]

end EnttWrap
